import Mathlib

/-!
Shallow embedding of the chat subsystem of NostradamusPy62/sistema2
(src/chat/utils.py and src/chat/views.py), together with proofs of the
specified properties of the fallback response engine, the AI response
adapter, the comparison endpoints, the conversation store and the
category filtering endpoint.

Conventions of the embedding:
* Django querysets over the product/category/chat-message tables become
  explicit lists carried in a `DB` record; `filter` is `List.filter`,
  `order_by` is a stable insertion sort, queryset slicing is `List.take`.
* Python `None` returns are `Option.none`; a function whose source body
  can fall through without a `return` gets result type `Option String`.
* Decimal prices are embedded as `Int`; rendering a price uses `toString`.
* The external generative-text service (google.generativeai) is an
  explicit parameter `svc : String → Except String String`; `.error`
  stands for any transport, quota or malformed-response failure, which
  in the source surfaces as an exception caught by the surrounding
  `try/except`.
-/

namespace Sistema2

/-! ### String primitives: Python `needle in hay` and `str.lower()` -/

/-- Boolean list-prefix test on characters. -/
def isPrefixL : List Char → List Char → Bool
  | [], _ => true
  | _ :: _, [] => false
  | a :: as, b :: bs => a == b && isPrefixL as bs

/-- Boolean list-infix test on characters: does `needle` occur inside `hay`. -/
def isInfixL (needle : List Char) : List Char → Bool
  | [] => needle.isEmpty
  | b :: bs => isPrefixL needle (b :: bs) || isInfixL needle bs

/-- Python `needle in hay` on strings (substring containment). -/
def strContains (hay needle : String) : Bool :=
  isInfixL needle.data hay.data

/-- Python `str.lower()` on one character, restricted to the alphabet the
source actually manipulates: ASCII letters plus the Spanish accented
uppercase letters appearing in the keyword sets. -/
def pyLowerChar (c : Char) : Char :=
  if 'A' ≤ c ∧ c ≤ 'Z' then Char.ofNat (c.toNat + 32)
  else if c = 'Á' then 'á'
  else if c = 'É' then 'é'
  else if c = 'Í' then 'í'
  else if c = 'Ó' then 'ó'
  else if c = 'Ú' then 'ú'
  else if c = 'Ñ' then 'ñ'
  else if c = 'Ü' then 'ü'
  else c

/-- Python `str.lower()` on strings. -/
def pyLower (s : String) : String :=
  String.mk (s.data.map pyLowerChar)

/-- Python `any(word in m for word in kws)`. -/
def containsAnyKeyword (m : String) (kws : List String) : Bool :=
  kws.any (fun w => strContains m w)

/-! ### Data model (store.models.Category / store.models.Product, flattened
through the `select_related` join the source always performs) -/

structure Category where
  id : Nat
  category_name : String
  description : String
deriving DecidableEq

structure Product where
  id : Nat
  product_name : String
  price : Int
  stock : Nat
  category : Category
  description : String
  is_available : Bool
deriving DecidableEq

/-- The catalog snapshot the chat code reads (read-only collaborator). -/
structure DB where
  products : List Product
  categories : List Category

/-! ### Ordering relations used by the `order_by` calls in the source -/

/-- Relation of `order_by` on the price column, ascending. -/
def priceLe (a b : Product) : Prop := a.price ≤ b.price

instance : DecidableRel priceLe :=
  fun a b => inferInstanceAs (Decidable (a.price ≤ b.price))

instance : IsTotal Product priceLe := ⟨fun a b => le_total a.price b.price⟩

instance : IsTrans Product priceLe := ⟨fun _ _ _ h1 h2 => le_trans h1 h2⟩

/-- Relation of `order_by` on the stock column, descending. -/
def stockGe (a b : Product) : Prop := b.stock ≤ a.stock

instance : DecidableRel stockGe :=
  fun a b => inferInstanceAs (Decidable (b.stock ≤ a.stock))

/-- Lexicographic order on character lists (executable). -/
def lexLeL : List Char → List Char → Bool
  | [], _ => true
  | _ :: _, [] => false
  | a :: as, b :: bs => if a = b then lexLeL as bs else decide (a < b)

/-- Name order on products (the default catalog presentation, see
`catalogSortedByName`). -/
def nameLe (a b : Product) : Prop :=
  lexLeL a.product_name.data b.product_name.data = true

instance : DecidableRel nameLe :=
  fun a b => inferInstanceAs (Decidable (lexLeL a.product_name.data b.product_name.data = true))

/-- Modelled from the spec: the default ordering of the product table
(declared in store/models.py, which is not among the given source files)
presents products sorted by name, as the listing properties of the spec
state. -/
def catalogSortedByName (db : DB) : Prop :=
  List.Pairwise nameLe db.products

instance (db : DB) : Decidable (catalogSortedByName db) :=
  inferInstanceAs (Decidable (List.Pairwise nameLe db.products))

/-! ### Fallback Response Engine
(ChatBotUtils.generate_fallback_response, src/chat/utils.py lines 171-260) -/

/-- Keyword set of branch 1 (category browsing), utils.py line 177. -/
def categoryKeywords : List String :=
  ["categoría", "categoria", "computadoras", "ropa", "música", "muebles", "accesorios"]

/-- Keyword set of branch 2 (budget), utils.py line 193. -/
def budgetKeywords : List String :=
  ["presupuesto", "gs", "guaraníes", "200.000", "200000", "dinero"]

/-- Keyword set of branch 3 (account help), utils.py line 206. -/
def accountKeywords : List String :=
  ["contraseña", "password", "cambiar contraseña", "olvidé contraseña"]

/-- Keyword set of branch 4 (purchase process), utils.py line 215. -/
def purchaseKeywords : List String :=
  ["comprar", "pedido", "carrito", "pago", "envío"]

/-- Keyword set of branch 5 (stock inquiry), utils.py line 226. -/
def stockKeywords : List String :=
  ["stock", "disponible", "cantidad", "unidades"]

def matchesCategoryKeywords (m : String) : Bool := containsAnyKeyword m categoryKeywords

def matchesBudgetKeywords (m : String) : Bool := containsAnyKeyword m budgetKeywords

def matchesAccountKeywords (m : String) : Bool := containsAnyKeyword m accountKeywords

def matchesPurchaseKeywords (m : String) : Bool := containsAnyKeyword m purchaseKeywords

def matchesStockKeywords (m : String) : Bool := containsAnyKeyword m stockKeywords

/-- One product line of the category and budget listings, utils.py lines 181, 198. -/
def productLine (p : Product) : String :=
  "• **" ++ p.product_name ++ "** - $" ++ toString p.price ++
    " (Stock: " ++ toString p.stock ++ ")"

/-- The available products whose category name contains "computadora"
(case-insensitive), utils.py line 179.  The queryset carries no
`order_by`, so it keeps the default catalog order. -/
def computadoraProducts (db : DB) : List Product :=
  db.products.filter
    (fun p => strContains (pyLower p.category.category_name) "computadora" && p.is_available)

/-- Branch 1 body (category browsing), utils.py lines 177-190.
`m` is the lowered user message. -/
def categoryResponse (db : DB) (m : String) : Option String :=
  if strContains m "computadora" then
    match computadoraProducts db with
    | [] => some "❌ No hay productos disponibles en la categoría Computadoras."
    | ps =>
      some ("🖥️ **Productos en Computadoras:**\n\n" ++
        String.intercalate "\n" (ps.map productLine) ++
        "\n\n¿Te interesa alguno de estos productos?")
  else
    some ("📂 **Categorías disponibles:**\n\n" ++
      String.intercalate "\n" (db.categories.map (fun c => "• " ++ c.category_name)) ++
      "\n\nPuedo mostrarte los productos de cualquier categoría. ¿Cuál te interesa?")

/-- Available products priced at or below the fixed budget, sorted
ascending by price, utils.py line 195. -/
def affordableProducts (db : DB) : List Product :=
  List.insertionSort priceLe
    (db.products.filter (fun p => decide (p.price ≤ 200000) && p.is_available))

/-- All available products sorted ascending by price, utils.py line 203. -/
def availableByPrice (db : DB) : List Product :=
  List.insertionSort priceLe (db.products.filter (fun p => p.is_available))

/-- The string returned by the catch-all `except` of
generate_fallback_response, utils.py line 260. -/
def fallbackErrorResponse : String :=
  "¡Hola! Estoy aquí para ayudarte con información sobre nuestros productos, stock, precios, proceso de compra y gestión de tu cuenta. ¿En qué puedo asistirte hoy?"

/-- Branch 2 body (budget), utils.py lines 193-203.  When no product at
all is available, the source dereferences `.first()` on an empty
queryset (an `AttributeError` on `None`), which the surrounding
`except` converts to `fallbackErrorResponse`; that path is inlined
here. -/
def budgetResponse (db : DB) : Option String :=
  match affordableProducts db with
  | [] =>
    match availableByPrice db with
    | [] => some fallbackErrorResponse
    | cheapest :: _ =>
      some ("❌ No hay productos dentro de tu presupuesto de 200,000 GS. El producto más económico cuesta $" ++ toString cheapest.price)
  | ps =>
    some ("💰 **Productos dentro de tu presupuesto de 200,000 GS:**\n\n" ++
      String.intercalate "\n" (ps.map productLine) ++
      "\n\n¿Te gustaría más información de algún producto en particular?")

/-- Branch 3 body (account help), utils.py lines 206-212: a fixed script. -/
def accountResponse : String :=
  "🔐 **Para cambiar tu contraseña:**\n\n1. Ve a \x27Mi Cuenta\x27 en el menú superior\n2. Haz clic en \x27Cambiar Contraseña\x27\n3. Ingresa tu contraseña actual y la nueva\n4. Confirma los cambios\n\nSi olvidaste tu contraseña, haz clic en \x27¿Olvidaste tu contraseña?\x27 en la página de login."

/-- Branch 4 body (purchase process), utils.py lines 215-223: a fixed script. -/
def purchaseResponse : String :=
  "🛒 **Proceso de compra:**\n\n1. **Agregar productos**: Haz clic en \x27Agregar al Carrito\x27\n2. **Ver carrito**: Ve a \x27Carrito\x27 en el menú\n3. **Checkout**: Haz clic en \x27Proceder al Pago\x27\n4. **Envío**: Elige dirección y método de envío\n5. **Pago**: Selecciona tu método de pago\n6. **Confirmación**: Recibirás un email de confirmación\n\n¿En qué paso necesitas ayuda?"

/-- One line of the stock listing, utils.py line 230. -/
def stockLine (p : Product) : String :=
  "• **" ++ p.product_name ++ "** - " ++ toString p.stock ++ " unidades"

/-- Branch 5 body (stock inquiry), utils.py lines 226-232.  The source
returns only inside `if products.exists():`; with an empty product
table the branch falls through the end of the function, so Python
returns `None` — embedded as `Option.none`. -/
def stockResponse (db : DB) : Option String :=
  match List.insertionSort stockGe db.products with
  | [] => none
  | ps =>
    some ("📦 **Productos con mayor stock:**\n\n" ++
      String.intercalate "\n" ((ps.take 3).map stockLine) ++
      "\n\n¿Quieres información detallada de algún producto?")

/-- One line of the featured-product listing, utils.py line 243. -/
def featuredLine (p : Product) : String :=
  "• **" ++ p.product_name ++ "** - $" ++ toString p.price

/-- Branch 6 body (general greeting), utils.py lines 235-257.  The source
samples 3 random available products (order_by over a random key); the
embedding takes the first 3 — no verified property depends on which
sample is shown. -/
def generalResponse (db : DB) : String :=
  let featured := (db.products.filter (fun p => p.is_available)).take 3
  "¡Hola! Soy tu asistente virtual. 😊\n\n**Resumen de la tienda:**\n• " ++
    toString db.products.length ++ " productos disponibles\n• " ++
    toString db.categories.length ++ " categorías\n\n**Algunos productos destacados:**\n" ++
    String.intercalate "\n" (featured.map featuredLine) ++
    "\n\n**Puedo ayudarte con:**\n• 🛍️ Información de productos y stock\n• 💰 Precios y presupuestos\n• 🛒 Proceso de compra\n• 🔐 Gestión de cuenta\n• 📦 Seguimiento de pedidos\n• 🔄 Comparación de productos\n\n¿En qué necesitas ayuda específicamente?"

/-- ChatBotUtils.generate_fallback_response, utils.py lines 171-260: the
ordered first-match-wins keyword dispatch over the lowered message. -/
def generate_fallback_response (db : DB) (user_message : String) : Option String :=
  if matchesCategoryKeywords (pyLower user_message) then
    categoryResponse db (pyLower user_message)
  else if matchesBudgetKeywords (pyLower user_message) then budgetResponse db
  else if matchesAccountKeywords (pyLower user_message) then some accountResponse
  else if matchesPurchaseKeywords (pyLower user_message) then some purchaseResponse
  else if matchesStockKeywords (pyLower user_message) then stockResponse db
  else some (generalResponse db)

/-- The six response strategies of the fallback engine, in source order. -/
inductive Branch where
  | category
  | budget
  | account
  | purchase
  | stock
  | general
deriving DecidableEq

/-- The classification the if/elif chain of
generate_fallback_response performs: the first keyword set (in the
fixed priority order of utils.py lines 177-235) that matches the
lowered message. -/
def classifyMessage (user_message : String) : Branch :=
  if matchesCategoryKeywords (pyLower user_message) then .category
  else if matchesBudgetKeywords (pyLower user_message) then .budget
  else if matchesAccountKeywords (pyLower user_message) then .account
  else if matchesPurchaseKeywords (pyLower user_message) then .purchase
  else if matchesStockKeywords (pyLower user_message) then .stock
  else .general

/-- The handler each branch runs; `m` is the lowered message. -/
def branchResponse (db : DB) (m : String) : Branch → Option String
  | .category => categoryResponse db m
  | .budget => budgetResponse db
  | .account => some accountResponse
  | .purchase => some purchaseResponse
  | .stock => stockResponse db
  | .general => some (generalResponse db)

/-! ### AI Response Adapter
(ChatBotUtils.generate_google_ai_response, utils.py lines 125-169) -/

/-- One product entry of the context data embedded into the prompt
(utils.py get_product_info, lines 99-114).  The Python dict repr is
abstracted to a plain rendering of the same fields; the prompt is
opaque to every verified property. -/
def productInfoLine (p : Product) : String :=
  p.product_name ++ " precio " ++ toString p.price ++ " stock " ++ toString p.stock ++
    " categoría " ++ p.category.category_name ++ " descripción " ++ p.description

/-- The prompt built by generate_google_ai_response, utils.py lines 133-155. -/
def buildPrompt (db : DB) (user_message : String) : String :=
  "Eres un asistente virtual especializado en e-commerce. Responde ÚNICAMENTE en español. " ++
    "INFORMACIÓN ACTUAL DE LA TIENDA: Productos disponibles: " ++
    toString db.products.length ++ " Categorías: " ++
    String.intercalate ", " (db.categories.map (fun c => c.category_name)) ++
    " Datos de productos: " ++
    String.intercalate "; " (db.products.map productInfoLine) ++
    " PREGUNTA DEL USUARIO: " ++ user_message

/-- ChatBotUtils.generate_google_ai_response, utils.py lines 125-169.
`svc` is the external generative-text collaborator; `.error` is any
failure of the `try` block (transport, quota, missing model, malformed
response).  On failure the source returns
`generate_fallback_response(user_message)`.  The `conversation_history`
parameter is accepted, and unused, exactly as in the source. -/
def generate_google_ai_response (svc : String → Except String String) (db : DB)
    (user_message : String) (conversation_history : List (String × String)) :
    Option String :=
  match svc (buildPrompt db user_message) with
  | .ok t => some t.trim
  | .error _ => generate_fallback_response db user_message

/-! ### Product comparison
(ChatBotUtils.compare_products, utils.py lines 309-348, and
CompareProductsView.post, views.py lines 188-214) -/

/-- The queryset `Product.objects.filter(id__in=product_ids)`,
utils.py line 312. -/
def resolveProducts (db : DB) (product_ids : List Nat) : List Product :=
  db.products.filter (fun p => product_ids.contains p.id)

/-- The comparison prompt of utils.py lines 328-340, with the Python
dict-list repr abstracted as in `buildPrompt`. -/
def comparePrompt (products : List Product) : String :=
  "Como experto en e-commerce, compara estos productos de manera útil: " ++
    String.intercalate "; " (products.map productInfoLine) ++
    " Responde en español con similitudes, diferencias, recomendación y mejor opción."

/-- Modelled from the spec: the source calls
`self._manual_product_comparison(product_ids)` (utils.py line 348) but
that method is not among the given source files; the spec describes it
only as a deterministic manual comparison — a side-by-side structured
diff of price/stock/category — that must still return a non-error
string.  Embedded as a fixed-header listing of the resolved products. -/
def manual_product_comparison (db : DB) (product_ids : List Nat) : String :=
  "📊 Comparación de productos:\n\n" ++
    String.intercalate "\n"
      ((resolveProducts db product_ids).map (fun p =>
        "• " ++ p.product_name ++ ": precio $" ++ toString p.price ++
          ", stock " ++ toString p.stock ++ ", categoría " ++ p.category.category_name))

/-- The insufficient-products message of utils.py line 315 and
views.py line 199. -/
def insufficientProductsMsg : String :=
  "Se necesitan al menos 2 productos para comparar"

/-- ChatBotUtils.compare_products, utils.py lines 309-348.  Fewer than 2
resolved products short-circuits before any service call; a service
failure falls back to the manual comparison. -/
def compare_products (svc : String → Except String String) (db : DB)
    (product_ids : List Nat) : String :=
  match resolveProducts db product_ids with
  | [] => insufficientProductsMsg
  | [_] => insufficientProductsMsg
  | ps =>
    match svc (comparePrompt ps) with
    | .ok t => t.trim
    | .error _ => manual_product_comparison db product_ids

/-- A JSON response of the views, reduced to the fields the claims are
about: the success flag, the payload or error text, and the HTTP
status. -/
structure JsonResult where
  success : Bool
  body : String
  status : Nat
deriving DecidableEq

/-- CompareProductsView.post, views.py lines 188-214, on an
already-parsed `product_ids` list. -/
def compareProductsView_post (svc : String → Except String String) (db : DB)
    (product_ids : List Nat) : JsonResult :=
  if product_ids.length < 2 then
    { success := false, body := insufficientProductsMsg, status := 400 }
  else
    { success := true, body := compare_products svc db product_ids, status := 200 }

/-! ### Category filtering endpoint
(ProductsByCategoryView.post, views.py lines 97-139) -/

/-- One entry of the products payload, views.py lines 123-130.  The
image lookup walks a relation that is outside the embedded catalog and
coerces every failure to `None`; it is embedded as the constant `none`. -/
structure ProductData where
  id : Nat
  name : String
  price : String
  stock : Nat
  description : String
  image_url : Option String
deriving DecidableEq

def productToData (p : Product) : ProductData :=
  { id := p.id, name := p.product_name, price := toString p.price,
    stock := p.stock, description := p.description, image_url := none }

/-- Python truthiness of `data.get("category_id")`: absent and `0` are falsy. -/
def pyTruthyNat : Option Nat → Bool
  | none => false
  | some n => n != 0

/-- Python truthiness of `data.get("category_name")`: absent and `""` are falsy. -/
def pyTruthyStr : Option String → Bool
  | none => false
  | some s => s != ""

/-- The products selected by ProductsByCategoryView.post,
views.py lines 106-111: by category id, or by case-insensitive
category-name substring, always with `is_available=True`. -/
def productsByCategorySelect (db : DB) (category_id : Option Nat)
    (category_name : Option String) : List Product :=
  if pyTruthyNat category_id then
    db.products.filter (fun p => p.category.id == category_id.getD 0 && p.is_available)
  else
    db.products.filter (fun p =>
      strContains (pyLower p.category.category_name) (pyLower (category_name.getD "")) &&
        p.is_available)

/-- ProductsByCategoryView.post, views.py lines 97-139, on an
already-parsed request body. -/
def productsByCategoryView_post (db : DB) (category_id : Option Nat)
    (category_name : Option String) : Except String (List ProductData) :=
  if pyTruthyNat category_id || pyTruthyStr category_name then
    .ok ((productsByCategorySelect db category_id category_name).map productToData)
  else
    .error "Se requiere category_id o category_name"

/-! ### Conversation store
(chat.models.ChatMessage as used by ChatView, views.py lines 19-95) -/

/-- A persisted conversation turn.  `user` is the optional authenticated
user id; `session_key` is the session token column (the source stores
the empty string for authenticated turns). -/
structure ChatMessageRec where
  user : Option Nat
  session_key : String
  user_message : String
  bot_response : String
  timestamp : Nat
deriving DecidableEq

/-- The identity-or-session key the history queries filter by. -/
inductive ChatKey where
  | userK (uid : Nat)
  | sessionK (key : String)

def matchesKey (k : ChatKey) (msg : ChatMessageRec) : Bool :=
  match k with
  | .userK uid => msg.user == some uid
  | .sessionK s => msg.session_key == s

/-- Relation of `order_by` on the timestamp column, ascending. -/
def tsLe (a b : ChatMessageRec) : Prop := a.timestamp ≤ b.timestamp

instance : DecidableRel tsLe :=
  fun a b => inferInstanceAs (Decidable (a.timestamp ≤ b.timestamp))

instance : IsTotal ChatMessageRec tsLe := ⟨fun a b => Nat.le_total a.timestamp b.timestamp⟩

instance : IsTrans ChatMessageRec tsLe := ⟨fun _ _ _ h1 h2 => Nat.le_trans h1 h2⟩

/-- History retrieval,
`ChatMessage.objects.filter(...).order_by("timestamp")[:limit]`
(views.py lines 26, 32, 51-53, 60-62): filter by key, sort ascending by
timestamp, slice to `limit`.  No reversal is applied afterwards. -/
def historyQuery (log : List ChatMessageRec) (k : ChatKey) (limit : Nat) :
    List ChatMessageRec :=
  (List.insertionSort tsLe (log.filter (matchesKey k))).take limit

/-- The identity data of an inbound request: the authenticated user, if
any, and `request.session.session_key`, which is `none` when no session
cookie exists yet. -/
structure ChatRequestIdent where
  auth_user : Option Nat
  session_key : Option String

/-- `request.session.create()` assigns a fresh session key when none
exists (views.py lines 57-59); `fresh` is the key the framework
generates. -/
def ensureSessionKey (req : ChatRequestIdent) (fresh : String) : String :=
  match req.session_key with
  | some k => k
  | none => fresh

/-- The ChatMessage record saved by ChatView.post, views.py lines 80-86:
`user=request.user if authenticated else None`,
`session_key=session_key if not authenticated else ""`. -/
def chatPostSavedTurn (req : ChatRequestIdent) (fresh : String)
    (user_message bot_response : String) (now : Nat) : ChatMessageRec :=
  match req.auth_user with
  | some u =>
    { user := some u, session_key := "",
      user_message := user_message, bot_response := bot_response, timestamp := now }
  | none =>
    { user := none, session_key := ensureSessionKey req fresh,
      user_message := user_message, bot_response := bot_response, timestamp := now }

/-! ### Concrete catalog and request fixtures used by witnesses and
counterexamples -/

def emptyDB : DB := { products := [], categories := [] }

def catRopa : Category := { id := 1, category_name := "Ropa", description := "" }

def prodCamisa : Product :=
  { id := 1, product_name := "Camisa", price := 50000, stock := 3,
    category := catRopa, description := "", is_available := true }

def dbRopa : DB := { products := [prodCamisa], categories := [catRopa] }

def catCalzado : Category := { id := 2, category_name := "Calzado", description := "" }

def prodZapato : Product :=
  { id := 2, product_name := "Zapato", price := 300000, stock := 5,
    category := catCalzado, description := "", is_available := true }

def dbCaro : DB := { products := [prodZapato], categories := [catCalzado] }

def catComp : Category := { id := 3, category_name := "Computadoras", description := "" }

def prodLaptopA : Product :=
  { id := 3, product_name := "Laptop A", price := 150000, stock := 3,
    category := catComp, description := "", is_available := true }

def prodLaptopB : Product :=
  { id := 4, product_name := "Laptop B", price := 250000, stock := 1,
    category := catComp, description := "", is_available := true }

def dbComp : DB := { products := [prodLaptopA, prodLaptopB], categories := [catComp] }

def prodOculto : Product :=
  { id := 5, product_name := "Oculto", price := 100000, stock := 2,
    category := catComp, description := "", is_available := false }

def dbMixto : DB := { products := [prodLaptopA, prodOculto], categories := [catComp] }

/-- A service collaborator that always fails (e.g. quota exhausted). -/
def failSvc : String → Except String String := fun _ => .error "quota"

/-- A service collaborator that always answers. -/
def okSvc : String → Except String String := fun _ => .ok "Texto generado."

/-- An anonymous request with no session cookie yet. -/
def reqAnon : ChatRequestIdent := { auth_user := none, session_key := none }

/-- A small conversation log for the history witness. -/
def logW : List ChatMessageRec :=
  [ { user := none, session_key := "s1", user_message := "b", bot_response := "rb", timestamp := 9 },
    { user := none, session_key := "s1", user_message := "a", bot_response := "ra", timestamp := 4 },
    { user := some 7, session_key := "", user_message := "c", bot_response := "rc", timestamp := 6 } ]

end Sistema2

namespace Sistema2

/-! ### Helper lemmas -/

/-- A string with a non-empty left part of an append is non-empty. -/
theorem append_ne_empty_left (s t : String) (h : s.data ≠ []) : s ++ t ≠ "" := by
  intro he
  apply h
  have hd : (s ++ t).data = ("" : String).data := by rw [he]
  rw [String.data_append] at hd
  exact (List.append_eq_nil.mp hd).1

/-- C1: evaluation at the failing input: a message hitting the
stock-inquiry branch of the fallback engine with an empty product table
makes generate_fallback_response fall through and return Python None,
not a non-empty string. -/
theorem fallback_stock_branch_returns_none :
    matchesStockKeywords (pyLower "hay stock") = true ∧
    generate_fallback_response emptyDB "hay stock" = none :=
  ⟨rfl, rfl⟩

/-- C2: whenever the external generative-text service signals an error,
generate_google_ai_response returns the fallback engine response for
the same message instead of raising. -/
theorem generate_falls_back_on_service_error
    (svc : String → Except String String) (db : DB) (msg : String)
    (hist : List (String × String)) (e : String)
    (hsvc : svc (buildPrompt db msg) = .error e) :
    generate_google_ai_response svc db msg hist = generate_fallback_response db msg := by
  unfold generate_google_ai_response
  rw [hsvc]

theorem generate_falls_back_on_service_error_witness :
    generate_google_ai_response failSvc dbRopa "hola" [] =
      generate_fallback_response dbRopa "hola" :=
  generate_falls_back_on_service_error failSvc dbRopa "hola" [] "quota" rfl

/-- C3 counterexample: the message "ropa" contains the recognized
category keyword "ropa" (and no stronger-priority keyword), the catalog
has an available product Camisa in category Ropa, yet the response is
the generic category-name listing, which does not mention the product
at all — so the claimed per-category product listing is not returned. -/
theorem category_keyword_specific_not_listed_cex :
    generate_fallback_response dbRopa "ropa" =
      some "📂 **Categorías disponibles:**\n\n• Ropa\n\nPuedo mostrarte los productos de cualquier categoría. ¿Cuál te interesa?"
    ∧ strContains "📂 **Categorías disponibles:**\n\n• Ropa\n\nPuedo mostrarte los productos de cualquier categoría. ¿Cuál te interesa?" "Camisa" = false :=
  ⟨rfl, rfl⟩

/-- C3 (amended): on a category-branch message, the fallback engine
lists the available products of the Computadoras category (sorted by
name under the catalog default order) only when the message contains
"computadora"; every other category-branch message gets the listing of
all category names. -/
theorem category_branch_behaviour (db : DB) (msg : String)
    (hcat : matchesCategoryKeywords (pyLower msg) = true)
    (hsorted : catalogSortedByName db) :
    (strContains (pyLower msg) "computadora" = true →
      (computadoraProducts db = [] →
        generate_fallback_response db msg =
          some "❌ No hay productos disponibles en la categoría Computadoras.")
      ∧ (computadoraProducts db ≠ [] →
          generate_fallback_response db msg =
            some ("🖥️ **Productos en Computadoras:**\n\n" ++
              String.intercalate "\n" ((computadoraProducts db).map productLine) ++
              "\n\n¿Te interesa alguno de estos productos?")
          ∧ List.Pairwise nameLe (computadoraProducts db)
          ∧ ∀ p ∈ computadoraProducts db,
              p.is_available = true ∧
              strContains (pyLower p.category.category_name) "computadora" = true))
    ∧ (strContains (pyLower msg) "computadora" = false →
        generate_fallback_response db msg =
          some ("📂 **Categorías disponibles:**\n\n" ++
            String.intercalate "\n" (db.categories.map (fun c => "• " ++ c.category_name)) ++
            "\n\nPuedo mostrarte los productos de cualquier categoría. ¿Cuál te interesa?")) := by
  have hresp : generate_fallback_response db msg = categoryResponse db (pyLower msg) := by
    unfold generate_fallback_response
    rw [hcat]
    rfl
  constructor
  · intro hcomp
    constructor
    · intro hnil
      rw [hresp]
      unfold categoryResponse
      rw [hcomp, hnil]
      rfl
    · intro hne
      refine ⟨?_, ?_, ?_⟩
      · rw [hresp]
        unfold categoryResponse
        rw [hcomp]
        cases hlist : computadoraProducts db with
        | nil => exact absurd hlist hne
        | cons a t => simp [hlist]
      · exact hsorted.filter _
      · intro p hp
        have hm := List.mem_filter.mp hp
        have hpred := hm.2
        simp only [Bool.and_eq_true] at hpred
        exact ⟨hpred.2, hpred.1⟩
  · intro hcomp
    rw [hresp]
    unfold categoryResponse
    rw [hcomp]
    simp

theorem category_branch_behaviour_witness :
    generate_fallback_response dbComp "computadoras" =
      some ("🖥️ **Productos en Computadoras:**\n\n" ++
        String.intercalate "\n" ((computadoraProducts dbComp).map productLine) ++
        "\n\n¿Te interesa alguno de estos productos?") :=
  ((((category_branch_behaviour dbComp "computadoras" (by decide)
      (by decide)).1 (by decide)).2 (by decide))).1

/-- C4 counterexample: with budget keyword "presupuesto" and no
affordable product, the response states only the price of the cheapest
available product; it does not name the product (here Zapato), so the
claimed "message naming the single cheapest available product" is not
returned. -/
theorem budget_cheapest_not_named_cex :
    generate_fallback_response dbCaro "presupuesto" =
      some "❌ No hay productos dentro de tu presupuesto de 200,000 GS. El producto más económico cuesta $300000"
    ∧ strContains "❌ No hay productos dentro de tu presupuesto de 200,000 GS. El producto más económico cuesta $300000" "Zapato" = false :=
  ⟨rfl, rfl⟩

/-- C4 (amended): on a budget-branch message (budget keyword, no
category keyword) the fallback engine lists the available products
priced at or below 200000, sorted ascending by price; when none
qualifies it reports the price of the cheapest available product; with
no available product at all it returns the static fallback greeting. -/
theorem budget_branch_behaviour (db : DB) (msg : String)
    (hcat : matchesCategoryKeywords (pyLower msg) = false)
    (hbud : matchesBudgetKeywords (pyLower msg) = true) :
    (affordableProducts db ≠ [] →
      generate_fallback_response db msg =
        some ("💰 **Productos dentro de tu presupuesto de 200,000 GS:**\n\n" ++
          String.intercalate "\n" ((affordableProducts db).map productLine) ++
          "\n\n¿Te gustaría más información de algún producto en particular?")
      ∧ List.Pairwise priceLe (affordableProducts db)
      ∧ ∀ p ∈ affordableProducts db, p.price ≤ 200000 ∧ p.is_available = true)
    ∧ (∀ c rest, affordableProducts db = [] →
        availableByPrice db = c :: rest →
        generate_fallback_response db msg =
          some ("❌ No hay productos dentro de tu presupuesto de 200,000 GS. El producto más económico cuesta $" ++ toString c.price)
        ∧ ∀ q ∈ db.products, q.is_available = true → c.price ≤ q.price)
    ∧ (affordableProducts db = [] → availableByPrice db = [] →
        generate_fallback_response db msg = some fallbackErrorResponse) := by
  have hresp : generate_fallback_response db msg = budgetResponse db := by
    unfold generate_fallback_response
    rw [hcat, hbud]
    rfl
  refine ⟨?_, ?_, ?_⟩
  · intro hne
    refine ⟨?_, ?_, ?_⟩
    · rw [hresp]
      unfold budgetResponse
      cases hlist : affordableProducts db with
      | nil => exact absurd hlist hne
      | cons a t => simp [hlist]
    · exact List.sorted_insertionSort priceLe _
    · intro p hp
      have hp2 : p ∈ db.products.filter
          (fun p => decide (p.price ≤ 200000) && p.is_available) :=
        (List.mem_insertionSort priceLe).mp hp
      have hpred := (List.mem_filter.mp hp2).2
      simp only [Bool.and_eq_true, decide_eq_true_eq] at hpred
      exact hpred
  · intro c rest hnil hcons
    constructor
    · rw [hresp]
      unfold budgetResponse
      rw [hnil, hcons]
    · intro q hq hqa
      have hs : List.Sorted priceLe (availableByPrice db) :=
        List.sorted_insertionSort priceLe _
      rw [hcons] at hs
      have hc := (List.sorted_cons.mp hs).1
      have hqmem : q ∈ availableByPrice db :=
        (List.mem_insertionSort priceLe).mpr (List.mem_filter.mpr ⟨hq, hqa⟩)
      rw [hcons] at hqmem
      rcases List.mem_cons.mp hqmem with hqc | hqr
      · rw [hqc]
      · exact hc q hqr
  · intro hnil hnil2
    rw [hresp]
    unfold budgetResponse
    rw [hnil, hnil2]

theorem budget_branch_behaviour_witness :
    generate_fallback_response dbCaro "presupuesto" =
      some ("❌ No hay productos dentro de tu presupuesto de 200,000 GS. El producto más económico cuesta $" ++ toString prodZapato.price) :=
  ((budget_branch_behaviour dbCaro "presupuesto" (by decide) (by decide)).2.1
    prodZapato [] (by decide) (by decide)).1

/-- C5: when the external service fails on a comparison with at least 2
resolved products, compare_products returns the deterministic manual
comparison, a non-empty (non-error) string, instead of raising. -/
theorem compare_service_error_manual_fallback
    (svc : String → Except String String) (db : DB) (ids : List Nat) (e : String)
    (p q : Product) (rest : List Product)
    (hres : resolveProducts db ids = p :: q :: rest)
    (hsvc : svc (comparePrompt (p :: q :: rest)) = .error e) :
    compare_products svc db ids = manual_product_comparison db ids
    ∧ manual_product_comparison db ids ≠ "" := by
  constructor
  · unfold compare_products
    rw [hres]
    simp [hsvc]
  · exact append_ne_empty_left _ _ (by decide)

theorem compare_service_error_manual_fallback_witness :
    compare_products failSvc dbComp [3, 4] = manual_product_comparison dbComp [3, 4]
    ∧ manual_product_comparison dbComp [3, 4] ≠ "" :=
  compare_service_error_manual_fallback failSvc dbComp [3, 4] "quota"
    prodLaptopA prodLaptopB [] (by rfl) rfl

/-- C6: with fewer than 2 resolved products compare_products returns the
insufficient-products message without consulting the external service
(the result is the same for every service collaborator), and the
compareProducts endpoint rejects id lists of length < 2 with the
structured 400 error. -/
theorem compare_requires_two_products
    (svc svc2 : String → Except String String) (db : DB) (ids : List Nat) :
    ((resolveProducts db ids).length < 2 →
      compare_products svc db ids = insufficientProductsMsg
      ∧ compare_products svc db ids = compare_products svc2 db ids)
    ∧ (ids.length < 2 →
      compareProductsView_post svc db ids =
        { success := false, body := insufficientProductsMsg, status := 400 }) := by
  constructor
  · intro hlen
    cases hres : resolveProducts db ids with
    | nil => simp [compare_products, hres]
    | cons a t =>
      cases t with
      | nil => simp [compare_products, hres]
      | cons b t2 =>
        rw [hres] at hlen
        simp only [List.length_cons] at hlen
        omega
  · intro hlen
    unfold compareProductsView_post
    rw [if_pos hlen]

theorem compare_requires_two_products_witness :
    compare_products failSvc dbComp [5] = insufficientProductsMsg
    ∧ compare_products failSvc dbComp [5] = compare_products okSvc dbComp [5]
    ∧ compareProductsView_post failSvc dbComp [5] =
        { success := false, body := insufficientProductsMsg, status := 400 } := by
  have h := compare_requires_two_products failSvc okSvc dbComp [5]
  exact ⟨(h.1 (by decide)).1, (h.1 (by decide)).2, h.2 (by decide)⟩

/-- C7: the fallback engine evaluates its keyword sets in the fixed
priority order category, budget, account, purchase, stock, general; the
response is always the handler of the first matching branch, even when
several keyword sets match. -/
theorem fallback_priority_first_match (db : DB) (msg : String) :
    generate_fallback_response db msg =
      branchResponse db (pyLower msg) (classifyMessage msg)
    ∧ (matchesCategoryKeywords (pyLower msg) = true →
        classifyMessage msg = Branch.category)
    ∧ (matchesCategoryKeywords (pyLower msg) = false →
        matchesBudgetKeywords (pyLower msg) = true →
        classifyMessage msg = Branch.budget)
    ∧ (matchesCategoryKeywords (pyLower msg) = false →
        matchesBudgetKeywords (pyLower msg) = false →
        matchesAccountKeywords (pyLower msg) = true →
        classifyMessage msg = Branch.account)
    ∧ (matchesCategoryKeywords (pyLower msg) = false →
        matchesBudgetKeywords (pyLower msg) = false →
        matchesAccountKeywords (pyLower msg) = false →
        matchesPurchaseKeywords (pyLower msg) = true →
        classifyMessage msg = Branch.purchase)
    ∧ (matchesCategoryKeywords (pyLower msg) = false →
        matchesBudgetKeywords (pyLower msg) = false →
        matchesAccountKeywords (pyLower msg) = false →
        matchesPurchaseKeywords (pyLower msg) = false →
        matchesStockKeywords (pyLower msg) = true →
        classifyMessage msg = Branch.stock)
    ∧ (matchesCategoryKeywords (pyLower msg) = false →
        matchesBudgetKeywords (pyLower msg) = false →
        matchesAccountKeywords (pyLower msg) = false →
        matchesPurchaseKeywords (pyLower msg) = false →
        matchesStockKeywords (pyLower msg) = false →
        classifyMessage msg = Branch.general) := by
  unfold generate_fallback_response classifyMessage
  cases h1 : matchesCategoryKeywords (pyLower msg) <;>
    cases h2 : matchesBudgetKeywords (pyLower msg) <;>
      cases h3 : matchesAccountKeywords (pyLower msg) <;>
        cases h4 : matchesPurchaseKeywords (pyLower msg) <;>
          cases h5 : matchesStockKeywords (pyLower msg) <;>
            simp [h1, h2, h3, h4, h5, branchResponse]

theorem fallback_priority_first_match_witness :
    matchesCategoryKeywords (pyLower "presupuesto para computadoras") = true
    ∧ matchesBudgetKeywords (pyLower "presupuesto para computadoras") = true
    ∧ generate_fallback_response dbRopa "presupuesto para computadoras" =
        categoryResponse dbRopa (pyLower "presupuesto para computadoras") := by
  have h := fallback_priority_first_match dbRopa "presupuesto para computadoras"
  refine ⟨rfl, rfl, ?_⟩
  rw [h.1, h.2.1 rfl]
  rfl

/-- C8: history retrieval returns at most `limit` conversation turns, in
non-decreasing timestamp order (ascending chronological, no reversal). -/
theorem history_sorted_and_bounded (log : List ChatMessageRec) (k : ChatKey)
    (limit : Nat) :
    (historyQuery log k limit).length ≤ limit
    ∧ List.Pairwise tsLe (historyQuery log k limit) :=
  ⟨List.length_take_le _ _,
   List.Pairwise.sublist (List.take_sublist _ _)
     (List.sorted_insertionSort tsLe _)⟩

theorem history_sorted_and_bounded_witness :
    (historyQuery logW (ChatKey.sessionK "s1") 2).length ≤ 2
    ∧ List.Pairwise tsLe (historyQuery logW (ChatKey.sessionK "s1") 2) :=
  history_sorted_and_bounded logW (ChatKey.sessionK "s1") 2

/-- C9: a turn saved by ChatView.post for an authenticated user carries
that user identity and the empty session token, and a turn saved
anonymously carries no user identity and a non-empty session token
(the existing session key, or the freshly created one). -/
theorem chat_turn_identity_xor (req : ChatRequestIdent) (fresh um br : String)
    (now : Nat) (hfresh : fresh ≠ "")
    (hsess : ∀ k, req.session_key = some k → k ≠ "") :
    (∀ u, req.auth_user = some u →
      (chatPostSavedTurn req fresh um br now).user = some u ∧
      (chatPostSavedTurn req fresh um br now).session_key = "")
    ∧ (req.auth_user = none →
      (chatPostSavedTurn req fresh um br now).user = none ∧
      (chatPostSavedTurn req fresh um br now).session_key ≠ "") := by
  constructor
  · intro u hu
    unfold chatPostSavedTurn
    rw [hu]
    exact ⟨rfl, rfl⟩
  · intro hn
    unfold chatPostSavedTurn
    rw [hn]
    refine ⟨rfl, ?_⟩
    unfold ensureSessionKey
    cases hk : req.session_key with
    | some k => exact hsess k hk
    | none => exact hfresh

theorem chat_turn_identity_xor_witness :
    (chatPostSavedTurn reqAnon "k7f2" "hola" "resp" 5).user = none
    ∧ (chatPostSavedTurn reqAnon "k7f2" "hola" "resp" 5).session_key ≠ "" :=
  (chat_turn_identity_xor reqAnon "k7f2" "hola" "resp" 5 (by decide)
    (fun _ h => nomatch h)).2 rfl

/-- C10: every product returned by the productsByCategory endpoint (by
id or by name substring) stems from an available catalog product;
unavailable products are never included. -/
theorem products_by_category_only_available (db : DB) (cid : Option Nat)
    (cname : Option String) (l : List ProductData)
    (h : productsByCategoryView_post db cid cname = .ok l) :
    ∀ d ∈ l, ∃ p, p ∈ db.products ∧ p.is_available = true ∧ d = productToData p := by
  intro d hd
  unfold productsByCategoryView_post at h
  by_cases hc : (pyTruthyNat cid || pyTruthyStr cname) = true
  · rw [if_pos hc] at h
    cases h
    obtain ⟨p, hp, hfd⟩ := List.mem_map.mp hd
    unfold productsByCategorySelect at hp
    by_cases hcid : pyTruthyNat cid = true
    · rw [if_pos hcid] at hp
      obtain ⟨hmem, hpred⟩ := List.mem_filter.mp hp
      simp only [Bool.and_eq_true] at hpred
      exact ⟨p, hmem, hpred.2, hfd.symm⟩
    · rw [if_neg hcid] at hp
      obtain ⟨hmem, hpred⟩ := List.mem_filter.mp hp
      simp only [Bool.and_eq_true] at hpred
      exact ⟨p, hmem, hpred.2, hfd.symm⟩
  · rw [if_neg hc] at h
    cases h

theorem products_by_category_only_available_witness :
    productsByCategoryView_post dbMixto (some 3) none = .ok [productToData prodLaptopA]
    ∧ ∃ p, p ∈ dbMixto.products ∧ p.is_available = true ∧
        productToData prodLaptopA = productToData p :=
  ⟨rfl,
   products_by_category_only_available dbMixto (some 3) none
     [productToData prodLaptopA] rfl (productToData prodLaptopA)
     (List.mem_singleton.mpr rfl)⟩

end Sistema2
